import Mathlib

/-!
Shallow embedding of the products/terms/quote HTTP API (src/index.js).

The application is a set of Express route handlers delegating to a
Supabase store.  Each handler is embedded as a pure Lean function from
the request data, the current database contents, and an optional
injected store fault (modelling transport or store-side failures that
the real client can surface on any call) to a triple
`Response × DB × List StoreCall`: the HTTP response, the database after
the request, and the trace of store operations the handler issued, in
order.

JavaScript numbers are modelled by `JSNum`: exact rationals for finite
values, plus `posInf`, `negInf` and `nan`, with IEEE-style special-value
propagation but exact (unrounded) finite arithmetic and no negative
zero.  All concrete constants appearing in the claims (0.1, 0.05, 1000,
4) and their combinations are exactly representable as binary doubles,
so the idealisation agrees with the source on every input the theorems
touch.  JavaScript values (request-body fields and stored cells) are
modelled by `JSVal`; `JSVal.truthy` is JavaScript truthiness as used by
the `!field` validation checks.
-/

/-- A JavaScript number: a finite rational, an infinity, or NaN.
Finite arithmetic is exact; negative zero is not distinguished. -/
inductive JSNum where
  | fin (q : ℚ)
  | posInf
  | negInf
  | nan
deriving DecidableEq

/-- JavaScript addition on `JSNum`. -/
def JSNum.add : JSNum → JSNum → JSNum
  | .nan, _ => .nan
  | _, .nan => .nan
  | .fin a, .fin b => .fin (a + b)
  | .fin _, .posInf => .posInf
  | .fin _, .negInf => .negInf
  | .posInf, .fin _ => .posInf
  | .negInf, .fin _ => .negInf
  | .posInf, .posInf => .posInf
  | .negInf, .negInf => .negInf
  | .posInf, .negInf => .nan
  | .negInf, .posInf => .nan

/-- JavaScript multiplication on `JSNum`. -/
def JSNum.mul : JSNum → JSNum → JSNum
  | .nan, _ => .nan
  | _, .nan => .nan
  | .fin a, .fin b => .fin (a * b)
  | .fin a, .posInf => if 0 < a then .posInf else if a < 0 then .negInf else .nan
  | .fin a, .negInf => if 0 < a then .negInf else if a < 0 then .posInf else .nan
  | .posInf, .fin b => if 0 < b then .posInf else if b < 0 then .negInf else .nan
  | .negInf, .fin b => if 0 < b then .negInf else if b < 0 then .posInf else .nan
  | .posInf, .posInf => .posInf
  | .posInf, .negInf => .negInf
  | .negInf, .posInf => .negInf
  | .negInf, .negInf => .posInf

/-- JavaScript division on `JSNum`.  Division of a nonzero finite
number by zero yields an infinity, `0 / 0` yields NaN. -/
def JSNum.div : JSNum → JSNum → JSNum
  | .nan, _ => .nan
  | _, .nan => .nan
  | .fin a, .fin b =>
      if b = 0 then (if 0 < a then .posInf else if a < 0 then .negInf else .nan)
      else .fin (a / b)
  | .fin _, .posInf => .fin 0
  | .fin _, .negInf => .fin 0
  | .posInf, .fin b => if b < 0 then .negInf else .posInf
  | .negInf, .fin b => if b < 0 then .posInf else .negInf
  | .posInf, .posInf => .nan
  | .posInf, .negInf => .nan
  | .negInf, .posInf => .nan
  | .negInf, .negInf => .nan

/-- `Number.isFinite`: true exactly on finite values. -/
def JSNum.isFinite : JSNum → Bool
  | .fin _ => true
  | _ => false

/-- A JavaScript value as it occurs in request bodies and stored rows. -/
inductive JSVal where
  | undefined
  | null
  | boolean (b : Bool)
  | num (n : JSNum)
  | str (s : String)
deriving DecidableEq

/-- JavaScript truthiness, as tested by the `!field` validation checks:
`undefined`, `null`, `false`, `0`, `NaN` and `""` are falsy. -/
def JSVal.truthy : JSVal → Bool
  | .undefined => false
  | .null => false
  | .boolean b => b
  | .num (.fin q) => decide (q ≠ 0)
  | .num .nan => false
  | .num _ => true
  | .str s => decide (s ≠ "")

/-- JavaScript ToNumber coercion, restricted to the value forms the
handlers can meet.  String parsing is modelled only as far as integer
literals; other strings map to NaN. -/
def JSVal.toNumber : JSVal → JSNum
  | .undefined => .nan
  | .null => .fin 0
  | .boolean b => .fin (if b then 1 else 0)
  | .num n => n
  | .str s =>
      if s = "" then .fin 0
      else match s.toInt? with
        | some n => .fin n
        | none => .nan

/-- A row of the `products` table (also the shape of a product
request body after destructuring: absent fields are `undefined`). -/
structure ProductRow where
  sku : JSVal
  name : JSVal
  description : JSVal
  price : JSVal
deriving DecidableEq

/-- A row of the `terms` table. -/
structure TermRow where
  weeks : JSVal
  normal_rate : JSVal
  punctual_rate : JSVal
deriving DecidableEq

/-- The remote store contents: the two tables the API touches. -/
structure DB where
  products : List ProductRow
  terms : List TermRow
deriving DecidableEq

/-- A store operation, recorded in the order the handler issues it. -/
inductive StoreCall where
  | selectAllProducts
  | selectOneProduct (sku : JSVal)
  | insertProduct (row : ProductRow)
  | updateProducts (name description price : JSVal) (sku : JSVal)
  | deleteProducts (sku : JSVal)
  | selectAllTerms
  | selectOneTerm (weeks : JSVal)
  | insertTerm (row : TermRow)
deriving DecidableEq

/-- An error surfaced by the store client; handlers only ever inspect
its `code` field. -/
structure StoreErr where
  code : String
deriving DecidableEq

/-- The PostgREST error returned by `.single()` when the filtered
result does not contain exactly one row. -/
def pgrst116 : StoreErr := ⟨"PGRST116"⟩

/-- `.single()` semantics over the rows matched by the equality
filter: exactly one row succeeds, anything else errors with
`PGRST116`. -/
def selectSingle {α : Type} (rows : List α) : Except StoreErr α :=
  match rows with
  | [a] => .ok a
  | _ => .error pgrst116

/-- One `products` single-row lookup with equality filter on `sku`.
`fault = some e` injects a store/transport failure in place of the
honest result. -/
def runSelectOneProduct (db : DB) (sku : JSVal) (fault : Option StoreErr) :
    Except StoreErr ProductRow :=
  match fault with
  | some e => .error e
  | none => selectSingle (db.products.filter (fun r => decide (r.sku = sku)))

/-- One `terms` single-row lookup with equality filter on `weeks`. -/
def runSelectOneTerm (db : DB) (weeks : JSVal) (fault : Option StoreErr) :
    Except StoreErr TermRow :=
  match fault with
  | some e => .error e
  | none => selectSingle (db.terms.filter (fun r => decide (r.weeks = weeks)))

/-- An HTTP response body, restricted to the shapes the handlers
produce.  `objOpt none` is `res.json(data[0])` on an empty `data`
array: `undefined`, serialised as an empty body. -/
inductive Body where
  | errMsg (msg : String)
  | obj (r : ProductRow)
  | objOpt (r : Option ProductRow)
  | rows (l : List ProductRow)
  | termObj (t : TermRow)
  | termList (l : List TermRow)
  | quoteObj (normalPayment punctualPayment : JSNum)
  | empty
deriving DecidableEq

/-- An HTTP response: status code and body. -/
structure Response where
  status : Nat
  body : Body
deriving DecidableEq

/-!
Route handlers, each translated from the corresponding handler in
src/index.js.  An insert/update/delete with an injected fault leaves
the database unchanged (the store reported failure, nothing committed).
-/

/-- GET /api/products (src/index.js lines 22-35). -/
def getAllProducts (db : DB) (fault : Option StoreErr) :
    Response × DB × List StoreCall :=
  match fault with
  | some _ => (⟨500, .errMsg "Failed to fetch products"⟩, db, [.selectAllProducts])
  | none => (⟨200, .rows db.products⟩, db, [.selectAllProducts])

/-- GET /api/products/:sku (src/index.js lines 38-59): single-row
lookup by `sku`; error code `PGRST116` maps to 404, any other error is
rethrown and caught as 500. -/
def getProductBySku (db : DB) (sku : String) (fault : Option StoreErr) :
    Response × DB × List StoreCall :=
  match runSelectOneProduct db (.str sku) fault with
  | .error e =>
      if e.code = "PGRST116" then
        (⟨404, .errMsg "Producto no encontrado."⟩, db, [.selectOneProduct (.str sku)])
      else
        (⟨500, .errMsg "Failed to fetch product"⟩, db, [.selectOneProduct (.str sku)])
  | .ok row => (⟨200, .obj row⟩, db, [.selectOneProduct (.str sku)])

/-- POST /api/products (src/index.js lines 62-85): truthiness check on
`sku`, `name`, `price` before any store call; then insert + select,
responding 201 with the inserted row. -/
def createProduct (db : DB) (sku name description price : JSVal)
    (fault : Option StoreErr) : Response × DB × List StoreCall :=
  if !sku.truthy || !name.truthy || !price.truthy then
    (⟨400, .errMsg "SKU, nombre y precio son requeridos."⟩, db, [])
  else
    let row : ProductRow := ⟨sku, name, description, price⟩
    match fault with
    | some _ => (⟨500, .errMsg "Failed to create product"⟩, db, [.insertProduct row])
    | none =>
        (⟨201, .obj row⟩, { db with products := db.products ++ [row] },
          [.insertProduct row])

/-- PUT /api/products/:sku (src/index.js lines 88-111): truthiness
check on `name`, `price`; then an update of exactly the fields `name`,
`description`, `price` filtered by `sku` equality, responding 200 with
`data[0]` (undefined when no row matched). -/
def updateProduct (db : DB) (sku : String) (name description price : JSVal)
    (fault : Option StoreErr) : Response × DB × List StoreCall :=
  if !name.truthy || !price.truthy then
    (⟨400, .errMsg "Nombre y precio son requeridos"⟩, db, [])
  else
    let call := StoreCall.updateProducts name description price (.str sku)
    match fault with
    | some _ => (⟨500, .errMsg "Failed to update product"⟩, db, [call])
    | none =>
        let touch : ProductRow → ProductRow := fun r =>
          { r with name := name, description := description, price := price }
        let returned := (db.products.filter (fun r => decide (r.sku = .str sku))).map touch
        let newProducts := db.products.map (fun r =>
          if r.sku = .str sku then touch r else r)
        (⟨200, .objOpt returned.head?⟩, { db with products := newProducts }, [call])

/-- DELETE /api/products/:sku (src/index.js lines 114-130): delete by
`sku` equality; 204 with no body whenever the store reports no error,
without inspecting affected rows. -/
def deleteProduct (db : DB) (sku : String) (fault : Option StoreErr) :
    Response × DB × List StoreCall :=
  let call := StoreCall.deleteProducts (.str sku)
  match fault with
  | some _ => (⟨500, .errMsg "Failed to delete product"⟩, db, [call])
  | none =>
      (⟨204, .empty⟩,
        { db with products := db.products.filter (fun r => decide (r.sku ≠ .str sku)) },
        [call])

/-- GET /api/terms (src/index.js lines 133-146). -/
def getAllTerms (db : DB) (fault : Option StoreErr) :
    Response × DB × List StoreCall :=
  match fault with
  | some _ => (⟨500, .errMsg "Failed to fetch terms"⟩, db, [.selectAllTerms])
  | none => (⟨200, .termList db.terms⟩, db, [.selectAllTerms])

/-- POST /api/terms (src/index.js lines 149-172): truthiness check on
`weeks`, `normal_rate`, `punctual_rate` before any store call. -/
def createTerm (db : DB) (weeks normal_rate punctual_rate : JSVal)
    (fault : Option StoreErr) : Response × DB × List StoreCall :=
  if !weeks.truthy || !normal_rate.truthy || !punctual_rate.truthy then
    (⟨400, .errMsg "Weeks, normal_rate, and punctual_rate are required"⟩, db, [])
  else
    let row : TermRow := ⟨weeks, normal_rate, punctual_rate⟩
    match fault with
    | some _ => (⟨500, .errMsg "Failed to create term"⟩, db, [.insertTerm row])
    | none =>
        (⟨201, .termObj row⟩, { db with terms := db.terms ++ [row] },
          [.insertTerm row])

/-- The quote arithmetic of src/index.js lines 197-198, in JavaScript
number semantics: `((price * rate) + price) / weeks`. -/
def payment (price rate weeks : JSNum) : JSNum :=
  ((price.mul rate).add price).div weeks

/-- POST /api/quote (src/index.js lines 175-208): product lookup by
`sku`, then (only if it succeeded) term lookup by `weeks`; any lookup
error is thrown and caught as 500; on success the two payments are
computed by unguarded division by the request-body `weeks`. -/
def quoteHandler (db : DB) (sku weeks : JSVal)
    (fault1 fault2 : Option StoreErr) : Response × DB × List StoreCall :=
  match runSelectOneProduct db sku fault1 with
  | .error _ =>
      (⟨500, .errMsg "Failed to calculate quote"⟩, db, [.selectOneProduct sku])
  | .ok product =>
      match runSelectOneTerm db weeks fault2 with
      | .error _ =>
          (⟨500, .errMsg "Failed to calculate quote"⟩, db,
            [.selectOneProduct sku, .selectOneTerm weeks])
      | .ok term =>
          let normalPayment :=
            payment product.price.toNumber term.normal_rate.toNumber weeks.toNumber
          let punctualPayment :=
            payment product.price.toNumber term.punctual_rate.toNumber weeks.toNumber
          (⟨200, .quoteObj normalPayment punctualPayment⟩, db,
            [.selectOneProduct sku, .selectOneTerm weeks])

/-!
Theorems for the spec claims.
-/

/-- Claim C1: when a Product with the given sku and a Term with the
given weeks exist (each matching exactly one row, both with numeric
fields, weeks nonzero), the quote endpoint returns 200 with
normalPayment = (price * normal_rate + price) / weeks and
punctualPayment = (price * punctual_rate + price) / weeks. -/
theorem quote_formula (db : DB) (sku weeks : JSVal) (p : ProductRow) (t : TermRow)
    (price nr pr w : ℚ)
    (hp : db.products.filter (fun r => decide (r.sku = sku)) = [p])
    (ht : db.terms.filter (fun r => decide (r.weeks = weeks)) = [t])
    (hprice : p.price = .num (.fin price))
    (hnr : t.normal_rate = .num (.fin nr))
    (hpr : t.punctual_rate = .num (.fin pr))
    (hw : weeks = .num (.fin w))
    (hw0 : w ≠ 0) :
    quoteHandler db sku weeks none none =
      (⟨200, .quoteObj (.fin ((price * nr + price) / w))
                       (.fin ((price * pr + price) / w))⟩,
        db, [.selectOneProduct sku, .selectOneTerm weeks]) := by
  subst hw
  simp [quoteHandler, runSelectOneProduct, runSelectOneTerm, selectSingle, hp, ht,
    payment, hprice, hnr, hpr, JSVal.toNumber, JSNum.mul, JSNum.add, JSNum.div, hw0]

/-- A database with the concrete Product and Term of claim C1:
price 1000, weeks 4, normal_rate 0.1, punctual_rate 0.05. -/
def dbQuote : DB :=
  ⟨[⟨.str "ABC", .str "Laptop", .undefined, .num (.fin 1000)⟩],
   [⟨.num (.fin 4), .num (.fin (1/10)), .num (.fin (1/20))⟩]⟩

/-- Claim C1, witness: on the concrete data the quote is
normalPayment = 275 and punctualPayment = 262.5. -/
theorem quote_formula_witness :
    quoteHandler dbQuote (.str "ABC") (.num (.fin 4)) none none =
      (⟨200, .quoteObj (.fin 275) (.fin (525/2))⟩, dbQuote,
        [.selectOneProduct (.str "ABC"), .selectOneTerm (.num (.fin 4))]) := by
  have h := quote_formula dbQuote (.str "ABC") (.num (.fin 4))
    ⟨.str "ABC", .str "Laptop", .undefined, .num (.fin 1000)⟩
    ⟨.num (.fin 4), .num (.fin (1/10)), .num (.fin (1/20))⟩
    1000 (1/10) (1/20) 4 (by simp [dbQuote]) (by simp [dbQuote])
    rfl rfl rfl rfl (by norm_num)
  rw [h]
  norm_num

/-- Claim C2: when no product row matches the sku or no term row
matches the weeks, the quote endpoint responds 500 with the generic
error body — not 404, and no quote body. -/
theorem quote_missing_row_500 (db : DB) (sku weeks : JSVal)
    (h : db.products.filter (fun r => decide (r.sku = sku)) = [] ∨
         db.terms.filter (fun r => decide (r.weeks = weeks)) = []) :
    (quoteHandler db sku weeks none none).1 =
      ⟨500, .errMsg "Failed to calculate quote"⟩ := by
  rcases h with h | h
  · simp [quoteHandler, runSelectOneProduct, selectSingle, h, pgrst116]
  · cases hp : db.products.filter (fun r => decide (r.sku = sku)) with
    | nil => simp [quoteHandler, runSelectOneProduct, selectSingle, hp, pgrst116]
    | cons a l =>
      cases l with
      | nil =>
          simp [quoteHandler, runSelectOneProduct, runSelectOneTerm, selectSingle,
            hp, h, pgrst116]
      | cons b l2 =>
          simp [quoteHandler, runSelectOneProduct, selectSingle, hp, pgrst116]

/-- Claim C2, witness: quoting against an empty store responds 500. -/
theorem quote_missing_row_500_witness :
    (quoteHandler ⟨[], []⟩ (.str "ABC") (.num (.fin 4)) none none).1 =
      ⟨500, .errMsg "Failed to calculate quote"⟩ :=
  quote_missing_row_500 ⟨[], []⟩ (.str "ABC") (.num (.fin 4)) (Or.inl rfl)

/-- Claim C3: when the product-creation truthiness validation on sku,
name or price fails, the handler responds 400 with the descriptive
message, issues no store call, and leaves the store unchanged —
whatever the store would have done (any fault). -/
theorem createProduct_validation_first (db : DB) (sku name description price : JSVal)
    (fault : Option StoreErr)
    (h : (!sku.truthy || !name.truthy || !price.truthy) = true) :
    createProduct db sku name description price fault =
      (⟨400, .errMsg "SKU, nombre y precio son requeridos."⟩, db, []) := by
  simp [createProduct, h]

/-- Claim C3, witness: creating a product with price missing returns
400 and performs no store call. -/
theorem createProduct_validation_first_witness :
    createProduct ⟨[], []⟩ (.str "ABC") (.str "Laptop") .undefined .undefined none =
      (⟨400, .errMsg "SKU, nombre y precio son requeridos."⟩, ⟨[], []⟩, []) :=
  createProduct_validation_first ⟨[], []⟩ (.str "ABC") (.str "Laptop")
    .undefined .undefined none (by decide)

/-- Claim C4: GET /products/:sku issues exactly one exact-match
single-row lookup; a store error with code PGRST116 (the no-rows /
not-found condition, also produced honestly when no row matches) maps
to 404 with the not-found message, and every other store error maps to
500 with the generic message. -/
theorem getProductBySku_error_mapping (db : DB) (sku : String) :
    (∀ e : StoreErr,
      (e.code = "PGRST116" →
        getProductBySku db sku (some e) =
          (⟨404, .errMsg "Producto no encontrado."⟩, db,
            [.selectOneProduct (.str sku)])) ∧
      (e.code ≠ "PGRST116" →
        getProductBySku db sku (some e) =
          (⟨500, .errMsg "Failed to fetch product"⟩, db,
            [.selectOneProduct (.str sku)]))) ∧
    (db.products.filter (fun r => decide (r.sku = .str sku)) = [] →
      getProductBySku db sku none =
        (⟨404, .errMsg "Producto no encontrado."⟩, db,
          [.selectOneProduct (.str sku)])) ∧
    (∀ fault : Option StoreErr,
      (getProductBySku db sku fault).2.2 = [.selectOneProduct (.str sku)]) := by
  refine ⟨fun e => ⟨fun he => ?_, fun he => ?_⟩, fun h => ?_, fun fault => ?_⟩
  · simp [getProductBySku, runSelectOneProduct, he]
  · simp [getProductBySku, runSelectOneProduct, he]
  · simp [getProductBySku, runSelectOneProduct, selectSingle, h, pgrst116]
  · cases fault with
    | some e =>
        by_cases he : e.code = "PGRST116" <;>
          simp [getProductBySku, runSelectOneProduct, he]
    | none =>
        cases h : selectSingle
            (db.products.filter (fun r => decide (r.sku = .str sku))) with
        | error e =>
            have he : e = pgrst116 := by
              cases hl : db.products.filter (fun r => decide (r.sku = .str sku)) with
              | nil => simpa [selectSingle, hl] using h.symm
              | cons a l =>
                cases l with
                | nil => simp [selectSingle, hl] at h
                | cons b l2 => simpa [selectSingle, hl] using h.symm
            subst he
            simp [getProductBySku, runSelectOneProduct, h, pgrst116]
        | ok row => simp [getProductBySku, runSelectOneProduct, h]

/-- Claim C4, witness: against an empty store the PGRST116 error maps
to 404 and a distinct error code maps to 500. -/
theorem getProductBySku_error_mapping_witness :
    getProductBySku ⟨[], []⟩ "ABC" (some ⟨"PGRST116"⟩) =
      (⟨404, .errMsg "Producto no encontrado."⟩, ⟨[], []⟩,
        [.selectOneProduct (.str "ABC")]) ∧
    getProductBySku ⟨[], []⟩ "ABC" (some ⟨"23505"⟩) =
      (⟨500, .errMsg "Failed to fetch product"⟩, ⟨[], []⟩,
        [.selectOneProduct (.str "ABC")]) :=
  ⟨(((getProductBySku_error_mapping ⟨[], []⟩ "ABC").1 ⟨"PGRST116"⟩).1 rfl),
   (((getProductBySku_error_mapping ⟨[], []⟩ "ABC").1 ⟨"23505"⟩).2 (by decide))⟩

/-- Claim C5: the quote endpoint never changes the store, its trace is
the product lookup alone or the product lookup followed by the term
lookup (in that order, and nothing else — no insert, update or
delete), the term lookup is skipped when the product lookup fails, and
any non-200 outcome is the bodyless generic 500, never a partial
quote. -/
theorem quote_readonly_ordered (db : DB) (sku weeks : JSVal)
    (fault1 fault2 : Option StoreErr) :
    (quoteHandler db sku weeks fault1 fault2).2.1 = db ∧
    ((quoteHandler db sku weeks fault1 fault2).2.2 = [.selectOneProduct sku] ∨
     (quoteHandler db sku weeks fault1 fault2).2.2 =
       [.selectOneProduct sku, .selectOneTerm weeks]) ∧
    (∀ e : StoreErr, runSelectOneProduct db sku fault1 = .error e →
      (quoteHandler db sku weeks fault1 fault2).2.2 = [.selectOneProduct sku]) ∧
    ((quoteHandler db sku weeks fault1 fault2).1.status = 200 ∨
     (quoteHandler db sku weeks fault1 fault2).1 =
       ⟨500, .errMsg "Failed to calculate quote"⟩) := by
  cases h1 : runSelectOneProduct db sku fault1 with
  | error e => simp [quoteHandler, h1]
  | ok p =>
      cases h2 : runSelectOneTerm db weeks fault2 with
      | error e => simp [quoteHandler, h1, h2]
      | ok t => simp [quoteHandler, h1, h2]

/-- Claim C5, witness: with an empty store the product lookup fails
and the trace is the single product lookup. -/
theorem quote_readonly_ordered_witness :
    (quoteHandler ⟨[], []⟩ (.str "ABC") (.num (.fin 4)) none none).2.2 =
      [.selectOneProduct (.str "ABC")] :=
  (quote_readonly_ordered ⟨[], []⟩ (.str "ABC") (.num (.fin 4)) none none).2.2.1
    pgrst116 rfl

/-- Division of any JavaScript number by (positive) zero is never
finite: it is an infinity or NaN. -/
theorem JSNum.div_zero_not_finite (x : JSNum) :
    (x.div (.fin 0)).isFinite = false := by
  cases x with
  | fin a =>
      by_cases h1 : 0 < a
      · simp [JSNum.div, JSNum.isFinite, h1]
      · by_cases h2 : a < 0 <;> simp [JSNum.div, JSNum.isFinite, h1, h2]
  | posInf => simp [JSNum.div, JSNum.isFinite]
  | negInf => simp [JSNum.div, JSNum.isFinite]
  | nan => simp [JSNum.div, JSNum.isFinite]

/-- Claim C6: when the request-body weeks is 0 (hence the matched Term
has weeks = 0) and both lookups succeed, the quote endpoint takes no
error branch: it responds 200, and both payment values are non-finite
(an infinity or NaN), the unguarded division by zero having been
performed. -/
theorem quote_div_by_zero_unguarded (db : DB) (sku weeks : JSVal)
    (p : ProductRow) (t : TermRow)
    (hp : db.products.filter (fun r => decide (r.sku = sku)) = [p])
    (ht : db.terms.filter (fun r => decide (r.weeks = weeks)) = [t])
    (hw : weeks = .num (.fin 0)) :
    ∃ n m : JSNum,
      quoteHandler db sku weeks none none =
        (⟨200, .quoteObj n m⟩, db, [.selectOneProduct sku, .selectOneTerm weeks]) ∧
      n.isFinite = false ∧ m.isFinite = false := by
  subst hw
  refine ⟨payment p.price.toNumber t.normal_rate.toNumber (.fin 0),
    payment p.price.toNumber t.punctual_rate.toNumber (.fin 0), ?_, ?_, ?_⟩
  · simp [quoteHandler, runSelectOneProduct, runSelectOneTerm, selectSingle,
      hp, ht, JSVal.toNumber]
  · exact JSNum.div_zero_not_finite _
  · exact JSNum.div_zero_not_finite _

/-- A database whose only term has weeks = 0, for the division-by-zero
witness. -/
def dbZeroWeeks : DB :=
  ⟨[⟨.str "ABC", .str "Laptop", .undefined, .num (.fin 1000)⟩],
   [⟨.num (.fin 0), .num (.fin (1/10)), .num (.fin (1/20))⟩]⟩

/-- Claim C6, witness: quoting the concrete product against the
weeks-0 term yields a 200 response with non-finite payments. -/
theorem quote_div_by_zero_unguarded_witness :
    ∃ n m : JSNum,
      quoteHandler dbZeroWeeks (.str "ABC") (.num (.fin 0)) none none =
        (⟨200, .quoteObj n m⟩, dbZeroWeeks,
          [.selectOneProduct (.str "ABC"), .selectOneTerm (.num (.fin 0))]) ∧
      n.isFinite = false ∧ m.isFinite = false :=
  quote_div_by_zero_unguarded dbZeroWeeks (.str "ABC") (.num (.fin 0))
    ⟨.str "ABC", .str "Laptop", .undefined, .num (.fin 1000)⟩
    ⟨.num (.fin 0), .num (.fin (1/10)), .num (.fin (1/20))⟩
    (by simp [dbZeroWeeks]) (by simp [dbZeroWeeks]) rfl

/-- Claim C7: a PUT with truthy name and price whose sku matches no
row, when the store reports no error, responds 200 with the undefined
(empty) body of `data[0]` on an empty result — not 404 and not 500. -/
theorem updateProduct_no_match_200 (db : DB) (sku : String)
    (name description price : JSVal)
    (hn : name.truthy = true) (hpr : price.truthy = true)
    (h : db.products.filter (fun r => decide (r.sku = .str sku)) = []) :
    (updateProduct db sku name description price none).1 = ⟨200, .objOpt none⟩ := by
  simp [updateProduct, hn, hpr, h]

/-- Claim C7, witness: updating a sku absent from an empty store
responds 200 with an empty body. -/
theorem updateProduct_no_match_200_witness :
    (updateProduct ⟨[], []⟩ "ABC" (.str "Laptop") .undefined
      (.num (.fin 1000)) none).1 = ⟨200, .objOpt none⟩ :=
  updateProduct_no_match_200 ⟨[], []⟩ "ABC" (.str "Laptop") .undefined
    (.num (.fin 1000)) (by decide) (by decide) rfl

/-- Claim C8: the required-field checks test JavaScript truthiness,
not presence: a present price, sku or name of 0 / "" still fails
product creation with 400 and no store call, and a present weeks,
normal_rate or punctual_rate of 0 still fails term creation with 400
and no store call. -/
theorem validation_truthiness_not_presence :
    (∀ (db : DB) (sku name description : JSVal) (fault : Option StoreErr),
      createProduct db sku name description (.num (.fin 0)) fault =
        (⟨400, .errMsg "SKU, nombre y precio son requeridos."⟩, db, [])) ∧
    (∀ (db : DB) (name description price : JSVal) (fault : Option StoreErr),
      createProduct db (.str "") name description price fault =
        (⟨400, .errMsg "SKU, nombre y precio son requeridos."⟩, db, [])) ∧
    (∀ (db : DB) (sku description price : JSVal) (fault : Option StoreErr),
      createProduct db sku (.str "") description price fault =
        (⟨400, .errMsg "SKU, nombre y precio son requeridos."⟩, db, [])) ∧
    (∀ (db : DB) (nr pr : JSVal) (fault : Option StoreErr),
      createTerm db (.num (.fin 0)) nr pr fault =
        (⟨400, .errMsg "Weeks, normal_rate, and punctual_rate are required"⟩, db, [])) ∧
    (∀ (db : DB) (w pr : JSVal) (fault : Option StoreErr),
      createTerm db w (.num (.fin 0)) pr fault =
        (⟨400, .errMsg "Weeks, normal_rate, and punctual_rate are required"⟩, db, [])) ∧
    (∀ (db : DB) (w nr : JSVal) (fault : Option StoreErr),
      createTerm db w nr (.num (.fin 0)) fault =
        (⟨400, .errMsg "Weeks, normal_rate, and punctual_rate are required"⟩, db, [])) := by
  refine ⟨?_, ?_, ?_, ?_, ?_, ?_⟩ <;> intros <;>
    simp [createProduct, createTerm, JSVal.truthy]

/-- Claim C9: DELETE /products/:sku responds 204 with an empty body
whenever the store reports no error, and when no row matches the sku
the store is left unchanged — deleting a nonexistent product is
indistinguishable from deleting an existing one. -/
theorem deleteProduct_unconditional_204 (db : DB) (sku : String) :
    (deleteProduct db sku none).1 = ⟨204, .empty⟩ ∧
    (db.products.filter (fun r => decide (r.sku = .str sku)) = [] →
      deleteProduct db sku none = (⟨204, .empty⟩, db, [.deleteProducts (.str sku)])) := by
  constructor
  · rfl
  · intro h
    have hall : ∀ r ∈ db.products, ¬(r.sku = .str sku) := by
      simpa using List.filter_eq_nil_iff.mp h
    have hkeep : db.products.filter (fun r => !decide (r.sku = .str sku)) =
        db.products := by
      apply List.filter_eq_self.mpr
      intro r hr
      simp [hall r hr]
    simp [deleteProduct, hkeep]

/-- Claim C9, witness: deleting a sku absent from an empty store
responds 204 and leaves the store as it was. -/
theorem deleteProduct_unconditional_204_witness :
    deleteProduct ⟨[], []⟩ "ABC" none =
      (⟨204, .empty⟩, ⟨[], []⟩, [.deleteProducts (.str "ABC")]) :=
  (deleteProduct_unconditional_204 ⟨[], []⟩ "ABC").2 rfl

/-- Claim C10: the product update sends to the store only the values
name, description and price together with the sku equality filter (its
trace is empty or that single update call), and the sku column of
every stored row — in particular of the matched record — is unchanged
by the request. -/
theorem updateProduct_frame (db : DB) (sku : String)
    (name description price : JSVal) (fault : Option StoreErr) :
    ((updateProduct db sku name description price fault).2.2 = [] ∨
     (updateProduct db sku name description price fault).2.2 =
       [.updateProducts name description price (.str sku)]) ∧
    ((updateProduct db sku name description price fault).2.1).products.map
        ProductRow.sku = db.products.map ProductRow.sku := by
  by_cases hv : (!name.truthy || !price.truthy) = true
  · simp [updateProduct, hv]
  · cases fault with
    | some e => simp [updateProduct, hv]
    | none =>
        refine ⟨Or.inr ?_, ?_⟩
        · simp [updateProduct, hv]
        · simp [updateProduct, hv]
          intro a _
          split <;> rfl
